import Mathlib

/-!
Verification of the budget/savings computation core of the personal finance
tracker (`src/streamlit_app.py`).  The presentation layer (widgets, charts,
session state) is out of scope; the embedded definitions cover the static
configuration tables, the expense record model, and the three computation
functions `calculate_budget_metrics`, `create_savings_chart` and
`get_savings_recommendations`.  Currency amounts and savings rates, which the
source holds as Python numbers, are modelled as exact rationals; the wall-clock
reading `datetime.now()` inside `calculate_budget_metrics` is modelled as an
explicit date parameter `now`.
-/

/-- A calendar date; only `month` and `year` are inspected by the core
(filtering in `calculate_budget_metrics`), `day` is carried for fidelity. -/
structure CalendarDate where
  year : Nat
  month : Nat
  day : Nat
deriving DecidableEq, Repr

/-- One row of the expenses table: `Date`, `Category`, `Amount`,
`Description` (the form substitutes a placeholder for an empty one). -/
structure ExpenseRecord where
  date : CalendarDate
  category : String
  amount : ℚ
  description : String
deriving DecidableEq, Repr

/-- One value of the `SALARY_RANGES` table. `max = none` models the
`float(\x7binf\x7d)` upper bound of the last bracket. -/
structure RangeInfo where
  min : ℚ
  max : Option ℚ
  savings_target : ℚ
deriving DecidableEq, Repr

/-- The static `SALARY_RANGES` configuration table. -/
def SALARY_RANGES : List (String × RangeInfo) :=
  [("0-10000", ⟨0, some 10000, 0.10⟩),
   ("10000-20000", ⟨10000, some 20000, 0.15⟩),
   ("20000-30000", ⟨20000, some 30000, 0.20⟩),
   ("30000-40000", ⟨30000, some 40000, 0.25⟩),
   ("40000-50000", ⟨40000, some 50000, 0.30⟩),
   ("50000+", ⟨50000, none, 0.35⟩)]

/-- The static `BUDGET_CATEGORIES` configuration table. -/
def BUDGET_CATEGORIES : List (String × ℚ) :=
  [("Groceries", 5000),
   ("Utilities", 3000),
   ("Rent/Mortgage", 15000),
   ("Transportation", 2000),
   ("Dining Out", 3000),
   ("Entertainment", 2000),
   ("Shopping", 4000),
   ("Health", 5000),
   ("Other", 3000)]

/-- The per-category entry built inside `calculate_budget_metrics`. -/
structure CategoryMetrics where
  budget : ℚ
  spent : ℚ
  remaining : ℚ
  percentage : ℚ
deriving DecidableEq, Repr

/-- The `metrics` dictionary returned by `calculate_budget_metrics`. -/
structure BudgetMetrics where
  total_budget : ℚ
  total_spent : ℚ
  category_metrics : List (String × CategoryMetrics)
deriving DecidableEq, Repr

/-- The `monthly_df` filter of `calculate_budget_metrics`: records whose
date has the same month and year as `now` (the `datetime.now()` reading,
made explicit). -/
def monthly_records (df : List ExpenseRecord) (now : CalendarDate) :
    List ExpenseRecord :=
  df.filter (fun r => r.date.month == now.month && r.date.year == now.year)

/-- `monthly_df[monthly_df[Category] == category][Amount].sum()`. -/
def spent_for (monthly : List ExpenseRecord) (category : String) : ℚ :=
  ((monthly.filter (fun r => r.category == category)).map
    ExpenseRecord.amount).sum

/-- The per-category dictionary entry of `calculate_budget_metrics`:
budget, spent, remaining, and percentage with the `budget > 0` guard. -/
def category_metric (monthly : List ExpenseRecord) (category : String)
    (budget : ℚ) : CategoryMetrics :=
  let spent := spent_for monthly category
  { budget := budget
    spent := spent
    remaining := budget - spent
    percentage := if budget > 0 then spent / budget * 100 else 0 }

/-- `calculate_budget_metrics(df, budget_categories)` with the
`datetime.now()` reading passed in as `now`. -/
def calculate_budget_metrics (df : List ExpenseRecord)
    (budget_categories : List (String × ℚ)) (now : CalendarDate) :
    BudgetMetrics :=
  let monthly_df := monthly_records df now
  { total_budget := (budget_categories.map Prod.snd).sum
    total_spent := (monthly_df.map ExpenseRecord.amount).sum
    category_metrics := budget_categories.map
      (fun p => (p.1, category_metric monthly_df p.1 p.2)) }

/-- `create_savings_chart(salary_range, total_spent)`: the figure itself is
presentation; embedded are the two computed bar heights
`(recommended_savings, actual_savings)`.  A label missing from
`SALARY_RANGES` (a `KeyError` in the source) is modelled as `none`. -/
def create_savings_chart (salary_range : String) (total_spent : ℚ) :
    Option (ℚ × ℚ) :=
  (List.lookup salary_range SALARY_RANGES).map (fun range_info =>
    let min_salary := range_info.min
    let savings_target := range_info.savings_target
    (min_salary * savings_target, max 0 (min_salary - total_spent)))

/-- The conditional overspending warning appended first in
`get_savings_recommendations`; the embedded rate appears where the source
interpolates `savings_target*100`. -/
def warning_tip (savings_target : ℚ) : String :=
  "⚠️ Your spending is higher than recommended. Try to save at least " ++
    toString (savings_target * 100) ++ "% of your income."

/-- The tips extended for the two lowest brackets. -/
def low_tips : List String :=
  ["🎯 Focus on essential expenses only",
   "🚶‍♂️ Use public transportation when possible",
   "🥘 Cook meals at home instead of eating out"]

/-- The tips extended for the two middle brackets. -/
def mid_tips : List String :=
  ["💰 Consider starting an emergency fund",
   "📱 Review and optimize monthly subscriptions",
   "🏦 Look into fixed deposits for savings"]

/-- The tips extended for the remaining (highest) brackets. -/
def high_tips : List String :=
  ["📈 Consider investing in mutual funds",
   "🏠 Plan for long-term investments",
   "💳 Optimize credit card rewards"]

/-- `get_savings_recommendations(salary_range, total_spent)`; a label missing
from `SALARY_RANGES` is modelled as `none`. -/
def get_savings_recommendations (salary_range : String) (total_spent : ℚ) :
    Option (List String) :=
  (List.lookup salary_range SALARY_RANGES).map (fun range_info =>
    let savings_target := range_info.savings_target
    let min_salary := range_info.min
    let recommendations :=
      if total_spent > (1 - savings_target) * min_salary then
        [warning_tip savings_target]
      else []
    recommendations ++
      (if salary_range ∈ ["0-10000", "10000-20000"] then low_tips
       else if salary_range ∈ ["20000-30000", "30000-40000"] then mid_tips
       else high_tips))

/-! ### Helper lemmas about `spent_for` and list sums -/

theorem spent_for_nil (c : String) : spent_for [] c = 0 := rfl

theorem spent_for_cons (r : ExpenseRecord) (l : List ExpenseRecord)
    (c : String) :
    spent_for (r :: l) c =
      (if r.category = c then r.amount else 0) + spent_for l c := by
  by_cases h : r.category = c <;>
    simp [spent_for, List.filter_cons, h]

theorem spent_for_append (l₁ l₂ : List ExpenseRecord) (c : String) :
    spent_for (l₁ ++ l₂) c = spent_for l₁ c + spent_for l₂ c := by
  simp [spent_for, List.filter_append]

theorem sum_map_add_split {α : Type} (l : List α) (f g : α → ℚ) :
    (l.map (fun a => f a + g a)).sum = (l.map f).sum + (l.map g).sum := by
  induction l with
  | nil => simp
  | cons a t ih => simp [ih]; ring

theorem sum_map_sub_split {α : Type} (l : List α) (f g : α → ℚ) :
    (l.map (fun a => f a - g a)).sum = (l.map f).sum - (l.map g).sum := by
  induction l with
  | nil => simp
  | cons a t ih => simp [ih]; ring

theorem sum_ite_key_not_mem (keys : List String) (k : String) (a : ℚ)
    (h : k ∉ keys) :
    (keys.map (fun c => if k = c then a else 0)).sum = 0 := by
  induction keys with
  | nil => simp
  | cons c cs ih =>
    simp only [List.mem_cons, not_or] at h
    simp [ih h.2, if_neg h.1]

theorem sum_ite_key_nodup (keys : List String) (k : String) (a : ℚ)
    (hnd : keys.Nodup) (hmem : k ∈ keys) :
    (keys.map (fun c => if k = c then a else 0)).sum = a := by
  induction keys with
  | nil => cases hmem
  | cons c cs ih =>
    have hnd' := List.nodup_cons.mp hnd
    rcases List.mem_cons.mp hmem with h | h
    · subst h
      rw [List.map_cons, List.sum_cons, if_pos rfl,
        sum_ite_key_not_mem cs k a hnd'.1, add_zero]
    · have hne : k ≠ c := fun e => hnd'.1 (e ▸ h)
      rw [List.map_cons, List.sum_cons, if_neg hne, zero_add,
        ih hnd'.2 h]

theorem sum_spent_for_eq (monthly : List ExpenseRecord)
    (table : List (String × ℚ))
    (hnd : (table.map Prod.fst).Nodup)
    (hmem : ∀ r ∈ monthly, r.category ∈ table.map Prod.fst) :
    (table.map (fun p => spent_for monthly p.1)).sum
      = (monthly.map ExpenseRecord.amount).sum := by
  induction monthly with
  | nil => simp [spent_for_nil]
  | cons r rest ih =>
    have hr : r.category ∈ table.map Prod.fst := hmem r (by simp)
    have hrest : ∀ x ∈ rest, x.category ∈ table.map Prod.fst :=
      fun x hx => hmem x (by simp [hx])
    have hsplit :
        (table.map (fun p => spent_for (r :: rest) p.1)).sum
          = (table.map (fun p => if r.category = p.1 then r.amount else 0)).sum
            + (table.map (fun p => spent_for rest p.1)).sum := by
      rw [← sum_map_add_split]
      simp only [spent_for_cons]
    have hone :
        (table.map (fun p => if r.category = p.1 then r.amount else 0)).sum
          = r.amount := by
      have : table.map (fun p => if r.category = p.1 then r.amount else 0)
          = (table.map Prod.fst).map
              (fun c => if r.category = c then r.amount else 0) := by
        simp [List.map_map, Function.comp]
      rw [this, sum_ite_key_nodup _ _ _ hnd hr]
    rw [hsplit, hone, ih hrest, List.map_cons, List.sum_cons]

theorem category_metric_budget (m : List ExpenseRecord) (c : String)
    (b : ℚ) : (category_metric m c b).budget = b := rfl

theorem category_metric_spent (m : List ExpenseRecord) (c : String)
    (b : ℚ) : (category_metric m c b).spent = spent_for m c := rfl

theorem category_metric_remaining (m : List ExpenseRecord) (c : String)
    (b : ℚ) : (category_metric m c b).remaining = b - spent_for m c := rfl

theorem category_metric_percentage (m : List ExpenseRecord) (c : String)
    (b : ℚ) : (category_metric m c b).percentage
      = if b > 0 then spent_for m c / b * 100 else 0 := rfl

/-! ### Claim theorems -/

/-- C1, counterexample: with the single configured category `Groceries` and
one in-month record in the unconfigured category `Unknown`, the sum of the
`remaining` fields is 5000 while `total_budget - total_spent` is 4900, so
the claimed identity fails once records outside the table contribute to
`total_spent`. -/
theorem remaining_sum_counterexample :
    ¬ ((((calculate_budget_metrics [⟨⟨2024, 6, 5⟩, "Unknown", 100, "-"⟩]
            [("Groceries", 5000)] ⟨2024, 6, 1⟩).category_metrics).map
          (fun p => p.2.remaining)).sum
        = (calculate_budget_metrics [⟨⟨2024, 6, 5⟩, "Unknown", 100, "-"⟩]
            [("Groceries", 5000)] ⟨2024, 6, 1⟩).total_budget
          - (calculate_budget_metrics [⟨⟨2024, 6, 5⟩, "Unknown", 100, "-"⟩]
              [("Groceries", 5000)] ⟨2024, 6, 1⟩).total_spent) := by
  simp [calculate_budget_metrics, monthly_records, category_metric,
    spent_for]
  norm_num

/-- C1, amended: when the budget table has no duplicate category keys (as a
Python dict guarantees) and every in-month record draws its category from the
table, the sum over configured categories of `remaining` equals
`total_budget - total_spent`. -/
theorem remaining_sum_eq_budget_sub_spent (df : List ExpenseRecord)
    (table : List (String × ℚ)) (now : CalendarDate)
    (hnd : (table.map Prod.fst).Nodup)
    (hmem : ∀ r ∈ monthly_records df now,
      r.category ∈ table.map Prod.fst) :
    (((calculate_budget_metrics df table now).category_metrics).map
        (fun p => p.2.remaining)).sum
      = (calculate_budget_metrics df table now).total_budget
        - (calculate_budget_metrics df table now).total_spent := by
  have h1 : (calculate_budget_metrics df table now).category_metrics.map
        (fun p => p.2.remaining)
      = table.map (fun p => p.2 - spent_for (monthly_records df now) p.1) := by
    simp [calculate_budget_metrics, List.map_map, Function.comp,
      category_metric_remaining]
  rw [h1, sum_map_sub_split, sum_spent_for_eq _ _ hnd hmem]
  rfl

/-- Witness for `remaining_sum_eq_budget_sub_spent` at one in-month
`Groceries` record. -/
theorem remaining_sum_eq_budget_sub_spent_witness :
    (((calculate_budget_metrics [⟨⟨2024, 6, 5⟩, "Groceries", 6000, "-"⟩]
          [("Groceries", 5000)] ⟨2024, 6, 1⟩).category_metrics).map
        (fun p => p.2.remaining)).sum
      = (calculate_budget_metrics [⟨⟨2024, 6, 5⟩, "Groceries", 6000, "-"⟩]
          [("Groceries", 5000)] ⟨2024, 6, 1⟩).total_budget
        - (calculate_budget_metrics [⟨⟨2024, 6, 5⟩, "Groceries", 6000, "-"⟩]
            [("Groceries", 5000)] ⟨2024, 6, 1⟩).total_spent :=
  remaining_sum_eq_budget_sub_spent _ _ _ (by simp)
    (by simp [monthly_records])

/-- C2: the snapshot depends on the clock reading only through its month and
year — with the same log, the same budget table and the same as-of
month/year, two evaluations return identical metrics. -/
theorem budget_metrics_clock_independent (df : List ExpenseRecord)
    (bc : List (String × ℚ)) (now₁ now₂ : CalendarDate)
    (hm : now₁.month = now₂.month) (hy : now₁.year = now₂.year) :
    calculate_budget_metrics df bc now₁ = calculate_budget_metrics df bc now₂ := by
  simp only [calculate_budget_metrics, monthly_records, hm, hy]

/-- Witness for `budget_metrics_clock_independent`: two clock readings on
different days of June 2024. -/
theorem budget_metrics_clock_independent_witness :
    calculate_budget_metrics [⟨⟨2024, 6, 5⟩, "Groceries", 6000, "-"⟩]
        BUDGET_CATEGORIES ⟨2024, 6, 1⟩
      = calculate_budget_metrics [⟨⟨2024, 6, 5⟩, "Groceries", 6000, "-"⟩]
        BUDGET_CATEGORIES ⟨2024, 6, 30⟩ :=
  budget_metrics_clock_independent _ _ _ _ rfl rfl

/-- C7: appending a record whose month or year differs from the as-of date
leaves every field of the metrics unchanged. -/
theorem append_other_month_frame (df : List ExpenseRecord)
    (bc : List (String × ℚ)) (now : CalendarDate) (r : ExpenseRecord)
    (h : r.date.month ≠ now.month ∨ r.date.year ≠ now.year) :
    calculate_budget_metrics (df ++ [r]) bc now
      = calculate_budget_metrics df bc now := by
  have hb : (r.date.month == now.month && r.date.year == now.year) = false := by
    rcases h with h | h <;> simp [h]
  have hm : monthly_records (df ++ [r]) now = monthly_records df now := by
    simp [monthly_records, List.filter_append, List.filter_cons, hb]
  simp only [calculate_budget_metrics, hm]

/-- Witness for `append_other_month_frame`: a July record appended to a June
log evaluated as of June 2024. -/
theorem append_other_month_frame_witness :
    calculate_budget_metrics
        ([⟨⟨2024, 6, 5⟩, "Groceries", 100, "-"⟩] ++
          [⟨⟨2024, 7, 1⟩, "Groceries", 50, "-"⟩])
        BUDGET_CATEGORIES ⟨2024, 6, 1⟩
      = calculate_budget_metrics [⟨⟨2024, 6, 5⟩, "Groceries", 100, "-"⟩]
          BUDGET_CATEGORIES ⟨2024, 6, 1⟩ :=
  append_other_month_frame _ _ _ _ (Or.inl (by decide))

/-- C3: for every bracket in `SALARY_RANGES` the first bar of the savings
chart — the recommended savings — is `min × savings_target`, whatever the
spending. -/
theorem recommended_savings_eq (label : String) (info : RangeInfo)
    (spent : ℚ) (h : List.lookup label SALARY_RANGES = some info) :
    (create_savings_chart label spent).map Prod.fst
      = some (info.min * info.savings_target) := by
  simp [create_savings_chart, h]

/-- Witness for `recommended_savings_eq` at bracket 20000-30000. -/
theorem recommended_savings_eq_witness :
    (create_savings_chart "20000-30000" 18000).map Prod.fst
      = some ((20000 : ℚ) * 0.20) :=
  recommended_savings_eq "20000-30000" ⟨20000, some 30000, 0.20⟩ 18000
    (by simp [SALARY_RANGES, List.lookup])

/-- C4: the second bar of the savings chart — the actual savings — is
`max 0 (min - total_spent)`, computed from the bracket floor and not from
the exact salary; it is 0 as soon as spending reaches the bracket floor. -/
theorem actual_savings_eq (label : String) (info : RangeInfo) (spent : ℚ)
    (h : List.lookup label SALARY_RANGES = some info) :
    (create_savings_chart label spent).map Prod.snd
        = some (max 0 (info.min - spent))
      ∧ (info.min ≤ spent →
          (create_savings_chart label spent).map Prod.snd = some 0) := by
  constructor
  · simp [create_savings_chart, h]
  · intro hle
    simp [create_savings_chart, h, max_eq_left (sub_nonpos.mpr hle)]

/-- Witness for `actual_savings_eq`: spending 25000 against bracket
20000-30000 leaves actual savings 0. -/
theorem actual_savings_eq_witness :
    (create_savings_chart "20000-30000" 25000).map Prod.snd = some 0 :=
  (actual_savings_eq "20000-30000" ⟨20000, some 30000, 0.20⟩ 25000
    (by simp [SALARY_RANGES, List.lookup])).2 (by norm_num)

/-- C5: every configured category contributes the entry built by
`category_metric`, whose `percentage` is `spent / budget × 100` when the
budget is positive and 0 when the budget is 0 — the guarded branch, never a
division-by-zero error. -/
theorem percentage_used_spec (df : List ExpenseRecord)
    (bc : List (String × ℚ)) (now : CalendarDate) (c : String) (b : ℚ)
    (h : (c, b) ∈ bc) :
    (c, category_metric (monthly_records df now) c b)
        ∈ (calculate_budget_metrics df bc now).category_metrics
      ∧ (category_metric (monthly_records df now) c b).percentage
          = (if b > 0 then spent_for (monthly_records df now) c / b * 100
             else 0)
      ∧ (b = 0 →
          (category_metric (monthly_records df now) c b).percentage = 0) := by
  refine ⟨?_, rfl, ?_⟩
  · have hmap := List.mem_map_of_mem
      (fun p : String × ℚ =>
        (p.1, category_metric (monthly_records df now) p.1 p.2)) h
    simpa [calculate_budget_metrics] using hmap
  · intro hb
    subst hb
    simp [category_metric_percentage]

/-- Witness for `percentage_used_spec` at a zero-budget category, showing
the zero branch. -/
theorem percentage_used_spec_witness :
    ("X", category_metric (monthly_records
          [⟨⟨2024, 6, 5⟩, "X", 100, "-"⟩] ⟨2024, 6, 1⟩) "X" 0)
        ∈ (calculate_budget_metrics [⟨⟨2024, 6, 5⟩, "X", 100, "-"⟩]
            [("X", 0)] ⟨2024, 6, 1⟩).category_metrics
      ∧ (category_metric (monthly_records
            [⟨⟨2024, 6, 5⟩, "X", 100, "-"⟩] ⟨2024, 6, 1⟩) "X" 0).percentage
          = (if (0 : ℚ) > 0 then
              spent_for (monthly_records
                [⟨⟨2024, 6, 5⟩, "X", 100, "-"⟩] ⟨2024, 6, 1⟩) "X" / 0 * 100
             else 0)
      ∧ ((0 : ℚ) = 0 →
          (category_metric (monthly_records
            [⟨⟨2024, 6, 5⟩, "X", 100, "-"⟩] ⟨2024, 6, 1⟩) "X" 0).percentage
            = 0) :=
  percentage_used_spec [⟨⟨2024, 6, 5⟩, "X", 100, "-"⟩] [("X", 0)]
    ⟨2024, 6, 1⟩ "X" 0 (by simp)

/-- C6: for every bracket the tip list is the bracket tier's fixed three
tips, with the overspending warning prepended exactly when
`total_spent > (1 - savings_target) * min`; in particular bracket
20000-30000 at spending 18000 gets the warning followed by the three
mid-tier tips. -/
theorem savings_tips_spec (label : String) (info : RangeInfo) (spent : ℚ)
    (h : List.lookup label SALARY_RANGES = some info) :
    get_savings_recommendations label spent
        = some ((if spent > (1 - info.savings_target) * info.min then
                  [warning_tip info.savings_target]
                 else [])
          ++ (if label = "0-10000" ∨ label = "10000-20000" then low_tips
              else if label = "20000-30000" ∨ label = "30000-40000" then
                mid_tips
              else high_tips))
      ∧ get_savings_recommendations "20000-30000" 18000
          = some (warning_tip 0.20 :: mid_tips) := by
  constructor
  · simp [get_savings_recommendations, h]
  · simp [get_savings_recommendations, SALARY_RANGES, List.lookup]
    norm_num

/-- Witness for `savings_tips_spec` at bracket 30000-40000 with zero
spending. -/
theorem savings_tips_spec_witness :
    get_savings_recommendations "30000-40000" 0 = some mid_tips := by
  have h := (savings_tips_spec "30000-40000" ⟨30000, some 40000, 0.25⟩ 0
    (by simp [SALARY_RANGES, List.lookup])).1
  norm_num at h
  exact h

/-- C9: the 0-10000 bracket has `min = 0`, so both chart bars are 0 for any
non-negative spending, and the warning tip is present exactly when spending
is positive. -/
theorem zero_bracket_spec (spent : ℚ) (h : 0 ≤ spent) :
    create_savings_chart "0-10000" spent = some (0, 0)
      ∧ get_savings_recommendations "0-10000" spent
          = some ((if spent > 0 then [warning_tip 0.10] else [])
            ++ low_tips) := by
  constructor
  · simp [create_savings_chart, SALARY_RANGES, List.lookup, Prod.ext_iff]
    exact h
  · simp [get_savings_recommendations, SALARY_RANGES, List.lookup]

/-- Witness for `zero_bracket_spec` at spending 5. -/
theorem zero_bracket_spec_witness :
    create_savings_chart "0-10000" 5 = some (0, 0)
      ∧ get_savings_recommendations "0-10000" 5
          = some ((if (5 : ℚ) > 0 then [warning_tip 0.10] else [])
            ++ low_tips) :=
  zero_bracket_spec 5 (by norm_num)

/-- C10: for every bracket there is a fixed base list of three tips
depending only on the label; the returned list is that base, preceded by
the warning exactly when spending exceeds the margin, hence never empty and
of length 3 or 4. -/
theorem tips_shape_spec (label : String) (info : RangeInfo)
    (h : List.lookup label SALARY_RANGES = some info) :
    ∃ base : List String, base.length = 3
      ∧ (∀ spent : ℚ, get_savings_recommendations label spent
          = some ((if spent > (1 - info.savings_target) * info.min then
                    [warning_tip info.savings_target]
                   else []) ++ base))
      ∧ (∀ spent : ℚ, ∀ tips,
          get_savings_recommendations label spent = some tips →
            tips ≠ []
              ∧ tips.length =
                  (if spent ≤ (1 - info.savings_target) * info.min then 3
                   else 4)) := by
  have hform : ∀ spent : ℚ, get_savings_recommendations label spent
      = some ((if spent > (1 - info.savings_target) * info.min then
                [warning_tip info.savings_target]
               else [])
        ++ (if label ∈ ["0-10000", "10000-20000"] then low_tips
            else if label ∈ ["20000-30000", "30000-40000"] then mid_tips
            else high_tips)) := by
    intro spent
    simp [get_savings_recommendations, h]
  have hlen : (if label ∈ ["0-10000", "10000-20000"] then low_tips
      else if label ∈ ["20000-30000", "30000-40000"] then mid_tips
      else high_tips).length = 3 := by
    split_ifs <;> rfl
  refine ⟨_, hlen, hform, ?_⟩
  intro spent tips htips
  rw [hform spent] at htips
  replace htips := Option.some.inj htips
  subst htips
  constructor
  · apply List.length_pos.mp
    rw [List.length_append, hlen]
    omega
  · rw [List.length_append, hlen]
    by_cases hsp : spent ≤ (1 - info.savings_target) * info.min
    · rw [if_pos hsp, if_neg (not_lt.mpr hsp)]
      rfl
    · rw [if_neg hsp, if_pos (lt_of_not_le hsp)]
      rfl

/-- Witness for `tips_shape_spec` at the unbounded top bracket. -/
theorem tips_shape_spec_witness :
    ∃ base : List String, base.length = 3
      ∧ (∀ spent : ℚ, get_savings_recommendations "50000+" spent
          = some ((if spent > (1 - (0.35 : ℚ)) * 50000 then
                    [warning_tip 0.35]
                   else []) ++ base))
      ∧ (∀ spent : ℚ, ∀ tips,
          get_savings_recommendations "50000+" spent = some tips →
            tips ≠ []
              ∧ tips.length =
                  (if spent ≤ (1 - (0.35 : ℚ)) * 50000 then 3 else 4)) :=
  tips_shape_spec "50000+" ⟨50000, none, 0.35⟩
    (by simp [SALARY_RANGES, List.lookup])

theorem spent_for_nonneg_of_amounts (l : List ExpenseRecord) (c : String)
    (h : ∀ r ∈ l, 0 ≤ r.amount) : 0 ≤ spent_for l c := by
  induction l with
  | nil => simp [spent_for_nil]
  | cons r t ih =>
    rw [spent_for_cons]
    have hr := h r (by simp)
    have ht := ih (fun x hx => h x (by simp [hx]))
    have hhead : 0 ≤ (if r.category = c then r.amount else 0) := by
      split
      · exact hr
      · exact le_refl 0
    linarith

theorem monthly_records_append (df l : List ExpenseRecord)
    (now : CalendarDate) :
    monthly_records (df ++ l) now
      = monthly_records df now ++ monthly_records l now := by
  simp [monthly_records, List.filter_append]

theorem monthly_records_sublist (l : List ExpenseRecord)
    (now : CalendarDate) : ∀ r ∈ monthly_records l now, r ∈ l :=
  fun r hr => List.mem_of_mem_filter hr

theorem category_metric_append_mono (m e : List ExpenseRecord) (c : String)
    (b : ℚ) (hn : 0 ≤ spent_for e c) :
    (category_metric m c b).budget = (category_metric (m ++ e) c b).budget
      ∧ (category_metric m c b).spent ≤ (category_metric (m ++ e) c b).spent
      ∧ (category_metric m c b).percentage
          ≤ (category_metric (m ++ e) c b).percentage
      ∧ (category_metric (m ++ e) c b).remaining
          ≤ (category_metric m c b).remaining := by
  have hss : spent_for m c ≤ spent_for (m ++ e) c := by
    rw [spent_for_append]
    exact le_add_of_nonneg_right hn
  refine ⟨rfl, hss, ?_, ?_⟩
  · rw [category_metric_percentage, category_metric_percentage]
    by_cases hb : b > 0
    · rw [if_pos hb, if_pos hb]
      gcongr
    · rw [if_neg hb, if_neg hb]
  · rw [category_metric_remaining, category_metric_remaining]
    exact sub_le_sub_left hss b

/-- C8, counterexample: appending one non-negative in-month `Groceries`
record drops that category's `remaining` from 5000 to 4900, so not every
`perCategory` value is non-decreasing under appends. -/
theorem per_category_value_decrease_counterexample :
    (0 : ℚ) ≤ 100
      ∧ ((calculate_budget_metrics [] [("Groceries", 5000)]
            ⟨2024, 6, 1⟩).category_metrics.map (fun p => p.2.remaining))
          = [5000]
      ∧ ((calculate_budget_metrics
              ([] ++ [⟨⟨2024, 6, 5⟩, "Groceries", 100, "-"⟩])
              [("Groceries", 5000)]
              ⟨2024, 6, 1⟩).category_metrics.map (fun p => p.2.remaining))
          = [4900]
      ∧ (4900 : ℚ) < 5000 := by
  refine ⟨by norm_num, ?_, ?_, by norm_num⟩ <;>
    simp [calculate_budget_metrics, monthly_records, category_metric,
      spent_for] <;> norm_num

/-- C8, amended: appending a record with non-negative amount never
decreases `total_spent` nor any per-category `spent` or `percentage`
value; budgets are unchanged and `remaining` is non-increasing instead of
non-decreasing. -/
theorem append_within_month_mono (df : List ExpenseRecord)
    (bc : List (String × ℚ)) (now : CalendarDate) (r : ExpenseRecord)
    (h : 0 ≤ r.amount) :
    (calculate_budget_metrics df bc now).total_spent
        ≤ (calculate_budget_metrics (df ++ [r]) bc now).total_spent
      ∧ List.Forall₂ (fun p q : String × CategoryMetrics =>
          p.1 = q.1 ∧ p.2.budget = q.2.budget ∧ p.2.spent ≤ q.2.spent
            ∧ p.2.percentage ≤ q.2.percentage
            ∧ q.2.remaining ≤ p.2.remaining)
        (calculate_budget_metrics df bc now).category_metrics
        (calculate_budget_metrics (df ++ [r]) bc now).category_metrics := by
  have he : monthly_records (df ++ [r]) now
      = monthly_records df now ++ monthly_records [r] now :=
    monthly_records_append df [r] now
  have hcase : monthly_records [r] now = [] ∨ monthly_records [r] now = [r] := by
    cases hb : (r.date.month == now.month && r.date.year == now.year) <;>
      simp [monthly_records, List.filter_cons, hb]
  have hsumn : 0 ≤ ((monthly_records [r] now).map ExpenseRecord.amount).sum := by
    rcases hcase with hc | hc <;> simp [hc, h]
  have hspn : ∀ c, 0 ≤ spent_for (monthly_records [r] now) c := by
    intro c
    rcases hcase with hc | hc
    · simp [hc, spent_for_nil]
    · rw [hc, spent_for_cons, spent_for_nil, add_zero]
      split
      · exact h
      · exact le_refl 0
  constructor
  · have h1 : (calculate_budget_metrics (df ++ [r]) bc now).total_spent
        = ((monthly_records df now).map ExpenseRecord.amount).sum
          + ((monthly_records [r] now).map ExpenseRecord.amount).sum := by
      show ((monthly_records (df ++ [r]) now).map ExpenseRecord.amount).sum = _
      rw [he, List.map_append, List.sum_append]
    have h0 : (calculate_budget_metrics df bc now).total_spent
        = ((monthly_records df now).map ExpenseRecord.amount).sum := rfl
    rw [h0, h1]
    exact le_add_of_nonneg_right hsumn
  · have hcm : ∀ t : List (String × ℚ), List.Forall₂
        (fun p q : String × CategoryMetrics =>
          p.1 = q.1 ∧ p.2.budget = q.2.budget ∧ p.2.spent ≤ q.2.spent
            ∧ p.2.percentage ≤ q.2.percentage
            ∧ q.2.remaining ≤ p.2.remaining)
        (t.map (fun p =>
          (p.1, category_metric (monthly_records df now) p.1 p.2)))
        (t.map (fun p =>
          (p.1, category_metric (monthly_records (df ++ [r]) now) p.1 p.2))) := by
      intro t
      induction t with
      | nil => exact List.Forall₂.nil
      | cons p tl ih =>
        refine List.Forall₂.cons ?_ ih
        obtain ⟨hbud, hsp, hperc, hrem⟩ :=
          category_metric_append_mono (monthly_records df now)
            (monthly_records [r] now) p.1 p.2 (hspn p.1)
        refine ⟨rfl, ?_, ?_, ?_, ?_⟩ <;> rw [he]
        · exact hbud
        · exact hsp
        · exact hperc
        · exact hrem
    exact hcm bc

/-- Witness for `append_within_month_mono`: one in-month record of amount
100 appended to the empty log. -/
theorem append_within_month_mono_witness :
    (calculate_budget_metrics [] [("Groceries", 5000)]
        ⟨2024, 6, 1⟩).total_spent
      ≤ (calculate_budget_metrics
          ([] ++ [⟨⟨2024, 6, 5⟩, "Groceries", 100, "-"⟩])
          [("Groceries", 5000)] ⟨2024, 6, 1⟩).total_spent :=
  (append_within_month_mono [] [("Groceries", 5000)] ⟨2024, 6, 1⟩
    ⟨⟨2024, 6, 5⟩, "Groceries", 100, "-"⟩ (by norm_num)).1
